import Mathlib

/-
Verification of internal/service/fsx/ontap_storage_virtual_machine_data_source.go:
a shallow embedding of the FSx ONTAP Storage Virtual Machine data-source read
handler and its flatten helper, with theorems about its error handling, request
construction and flattening behaviour.
-/

namespace FsxOntapSvm

/-- A flattened Terraform attribute value: strings, lists of values and
string-keyed maps, mirroring the untyped interface values the provider writes
into resource state. -/
inductive Value where
  | str : String → Value
  | list : List Value → Value
  | map : List (String × Value) → Value

/-- Embedding of aws.StringValue: dereference an optional string pointer,
yielding the empty string when the pointer is nil. -/
def stringValue (s : Option String) : String := s.getD ""

/-- Embedding of fsx.LifecycleTransitionReason: a structure holding an optional
message pointer. -/
structure LifecycleTransitionReason where
  message : Option String
deriving Repr, DecidableEq

/-- Embedding of flattenLifecycleTransitionReason (source lines 253-265): a nil
input flattens to the empty list; otherwise the result is a singleton list
holding a map that carries a "message" entry exactly when the remote message
pointer is non-nil. -/
def flattenLifecycleTransitionReason (rs : Option LifecycleTransitionReason) : List Value :=
  match rs with
  | none => []
  | some rs =>
    let m : List (String × Value) := []
    let m :=
      match rs.message with
      | some _ => m ++ [("message", Value.str (stringValue rs.message))]
      | none => m
    [Value.map m]

/-- Embedding of the self-managed active directory attributes consumed by the
active-directory flattener. -/
structure SelfManagedActiveDirectoryAttributes where
  dnsIps : List String
  domainName : Option String
  fileSystemAdministratorsGroup : Option String
  organizationalUnitDistinguishedName : Option String
  userName : Option String
deriving Repr, DecidableEq

/-- Embedding of fsx.SvmActiveDirectoryConfiguration. -/
structure SvmActiveDirectoryConfiguration where
  netBiosName : Option String
  selfManagedActiveDirectoryConfiguration : Option SelfManagedActiveDirectoryAttributes
deriving Repr, DecidableEq

/-- Modelled from the spec: the self-managed part of
flattenSvmActiveDirectoryConfiguration is defined elsewhere in the fsx package
and is not under src. Per the spec, absent optional remote sub-structures
flatten to empty lists, present ones to singleton lists of maps, and sets of
strings pass through. -/
def flattenSvmSelfManagedActiveDirectoryConfiguration
    (ad : Option SelfManagedActiveDirectoryAttributes) : List Value :=
  match ad with
  | none => []
  | some ad =>
    [Value.map
      [("dns_ips", Value.list (ad.dnsIps.map Value.str)),
       ("domain_name", Value.str (stringValue ad.domainName)),
       ("file_system_administrators_group",
        Value.str (stringValue ad.fileSystemAdministratorsGroup)),
       ("organizational_unit_distinguished_name",
        Value.str (stringValue ad.organizationalUnitDistinguishedName)),
       ("username", Value.str (stringValue ad.userName))]]

/-- Modelled from the spec: flattenSvmActiveDirectoryConfiguration is defined
elsewhere in the fsx package and is not under src; the resource-data argument
it receives in Go is not consulted for a pure data-source read. Per the spec,
an absent configuration flattens to an empty list and a present one to a
singleton list of maps. -/
def flattenSvmActiveDirectoryConfiguration
    (ad : Option SvmActiveDirectoryConfiguration) : List Value :=
  match ad with
  | none => []
  | some ad =>
    [Value.map
      [("netbios_name", Value.str (stringValue ad.netBiosName)),
       ("self_managed_active_directory_configuration",
        Value.list (flattenSvmSelfManagedActiveDirectoryConfiguration
          ad.selfManagedActiveDirectoryConfiguration))]]

/-- Embedding of a single per-protocol SVM endpoint: a DNS name and a set of
IP addresses. -/
structure SvmEndpoint where
  dnsName : Option String
  ipAddresses : List String
deriving Repr, DecidableEq

/-- Embedding of fsx.SvmEndpoints: the four per-protocol endpoints. -/
structure SvmEndpoints where
  iscsi : Option SvmEndpoint
  management : Option SvmEndpoint
  nfs : Option SvmEndpoint
  smb : Option SvmEndpoint
deriving Repr, DecidableEq

/-- Modelled from the spec: the per-endpoint part of flattenSvmEndpoints is
defined elsewhere in the fsx package and is not under src. Absent endpoints
flatten to empty lists, present ones to a singleton list of a map with the
DNS name and the IP address set. -/
def flattenSvmEndpoint (ep : Option SvmEndpoint) : List Value :=
  match ep with
  | none => []
  | some ep =>
    [Value.map
      [("dns_name", Value.str (stringValue ep.dnsName)),
       ("ip_addresses", Value.list (ep.ipAddresses.map Value.str))]]

/-- Modelled from the spec: flattenSvmEndpoints is defined elsewhere in the fsx
package and is not under src; an absent endpoints structure flattens to an
empty list, a present one to a singleton list of a map of the four protocol
blocks. -/
def flattenSvmEndpoints (eps : Option SvmEndpoints) : List Value :=
  match eps with
  | none => []
  | some eps =>
    [Value.map
      [("iscsi", Value.list (flattenSvmEndpoint eps.iscsi)),
       ("management", Value.list (flattenSvmEndpoint eps.management)),
       ("nfs", Value.list (flattenSvmEndpoint eps.nfs)),
       ("smb", Value.list (flattenSvmEndpoint eps.smb))]]

/-- Embedding of the provider's ignore-tags configuration: keys and key spaces
to exclude from reported tags. -/
structure IgnoreTagsConfig where
  keys : List String
  keySpaces : List String
deriving Repr, DecidableEq

/-- Embedding of the provider's default-tags configuration. -/
structure DefaultTagsConfig where
  tags : List (String × String)
deriving Repr, DecidableEq

/-- Modelled from the spec: IgnoreAWS of the shared tagging helper library is
not under src; per the spec it excludes AWS-reserved tags, i.e. keys in the
reserved "aws:" key space. -/
def ignoreAWS (tags : List (String × String)) : List (String × String) :=
  tags.filter (fun t => !(t.1.startsWith "aws:"))

/-- Modelled from the spec: IgnoreConfig of the shared tagging helper library
is not under src; per the spec it excludes provider-configured-ignore tags,
matching by exact key or by configured key space. -/
def ignoreConfig (cfg : IgnoreTagsConfig) (tags : List (String × String)) :
    List (String × String) :=
  tags.filter (fun t =>
    !(cfg.keys.contains t.1) && !(cfg.keySpaces.any (fun p => t.1.startsWith p)))

/-- Modelled from the spec: the default-tag step of the shared tagging helper
library is not under src; per the spec the filtered remote tags are merged with
the default-tag configuration before being written to state, remote tags taking
priority on key collisions. The call site in src names this step
RemoveDefaultConfig. -/
def mergeDefaultConfig (cfg : DefaultTagsConfig) (tags : List (String × String)) :
    List (String × String) :=
  cfg.tags.filter (fun dt => !(tags.any (fun t => t.1 == dt.1))) ++ tags

/-- Modelled from the spec: Map of the shared tagging helper library converts a
tag list into the flattened map value written to state. -/
def tagsMap (tags : List (String × String)) : Value :=
  Value.map (tags.map (fun t => (t.1, Value.str t.2)))

/-- Embedding of the fsx API name/values filter entry. -/
structure SVMFilter where
  name : String
  values : List String
deriving Repr, DecidableEq

/-- Embedding of fsx.DescribeStorageVirtualMachinesInput: an optional
identifier list and an optional filter list; none models a nil Go slice, which
is omitted from the request. -/
structure DescribeStorageVirtualMachinesInput where
  storageVirtualMachineIds : Option (List String) := none
  filters : Option (List SVMFilter) := none
deriving Repr, DecidableEq

/-- Modelled from the spec: newStorageVirtualMachineFilterList is defined
elsewhere in the fsx package and is not under src; per the spec it maps each
configured name/values filter pair into an API filter entry of the request. -/
def newStorageVirtualMachineFilterList (s : List SVMFilter) : List SVMFilter :=
  s.map (fun f => { name := f.name, values := f.values })

/-- Embedding of fsx.StorageVirtualMachine: the fields the read handler
consumes. The creation time is embedded as its already-formatted RFC3339
rendering, which is all the handler uses of it. -/
structure StorageVirtualMachine where
  storageVirtualMachineId : Option String
  resourceARN : Option String
  creationTimeRFC3339 : String
  endpoints : Option SvmEndpoints
  fileSystemId : Option String
  lifecycleStatus : Option String
  lifecycleTransitionReason : Option LifecycleTransitionReason
  name : Option String
  subtype : Option String
  uuid : Option String
  tags : List (String × String)
  activeDirectoryConfiguration : Option SvmActiveDirectoryConfiguration
deriving Repr, DecidableEq

/-- The configured attributes and provider-level tag configuration the read
handler consumes from the resource data and the provider meta object. -/
structure Config where
  id : Option String
  filters : List SVMFilter
  defaultTagsConfig : DefaultTagsConfig
  ignoreTagsConfig : IgnoreTagsConfig
deriving Repr, DecidableEq

/-- Embedding of d.GetOk for a string attribute: ok exactly when the attribute
is set to a non-zero (non-empty) string. -/
def getOkString (v : Option String) : Option String :=
  match v with
  | some s => if s = "" then none else some s
  | none => none

/-- Embedding of the request construction of
dataSourceONTAPStorageVirtualMachineRead (source lines 202-214): restrict the
request to the explicit identifier when one is configured, attach the
configured filter list, and drop an empty filter list to nil. -/
def buildInput (cfg : Config) : DescribeStorageVirtualMachinesInput :=
  let input : DescribeStorageVirtualMachinesInput := {}
  let input :=
    match getOkString cfg.id with
    | some v => { input with storageVirtualMachineIds := some [v] }
    | none => input
  let fs := newStorageVirtualMachineFilterList cfg.filters
  let input := { input with filters := some fs }
  if fs.length == 0 then { input with filters := none } else input

/-- The mutable resource-data state the handler writes into: an optional
identifier plus the attributes set so far, in write order. -/
structure State where
  id : Option String := none
  attrs : List (String × Value) := []

/-- The outcome of one read invocation: the resource-data state as the handler
leaves it, and the returned diagnostics (error summaries; empty is success). -/
structure ReadOutcome where
  state : State
  diags : List String

/-- The host framework may reject a d.Set call with an error (a type or shape
mismatch when assigning the value); the handler is parameterised over this
outcome per attribute name. -/
def SetOracle := String → Option String

/-- Embedding of an unguarded d.Set call: on a framework error the returned
error is discarded and the attribute is left unwritten; otherwise the attribute
is appended to the state. -/
def setAttr (setErr : SetOracle) (st : State) (a : String) (v : Value) : State :=
  match setErr a with
  | some _ => st
  | none => { st with attrs := st.attrs ++ [(a, v)] }

/-- Embedding of a d.Set call whose error the handler checks: the framework
error is surfaced to the caller. -/
def setAttrE (setErr : SetOracle) (st : State) (a : String) (v : Value) :
    Except String State :=
  match setErr a with
  | some e => Except.error e
  | none => Except.ok { st with attrs := st.attrs ++ [(a, v)] }

/-- Embedding of dataSourceONTAPStorageVirtualMachineRead (source lines
196-251), parameterised over the external findStorageVirtualMachine helper
(defined elsewhere, it enforces the exactly-one-match invariant and may fail)
and over the framework's per-attribute set outcome. -/
def dataSourceONTAPStorageVirtualMachineRead (cfg : Config)
    (find : DescribeStorageVirtualMachinesInput → Except String StorageVirtualMachine)
    (setErr : SetOracle) : ReadOutcome :=
  let input := buildInput cfg
  match find input with
  | Except.error err =>
    { state := {}, diags := ["reading FSx ONTAP Storage Virtual Machine: " ++ err] }
  | Except.ok svm =>
    let st : State := { id := some (stringValue svm.storageVirtualMachineId), attrs := [] }
    match setAttrE setErr st "active_directory_configuration"
        (Value.list (flattenSvmActiveDirectoryConfiguration
          svm.activeDirectoryConfiguration)) with
    | Except.error e =>
      { state := st, diags := ["setting active_directory_configuration: " ++ e] }
    | Except.ok st =>
      let st := setAttr setErr st "arn" (Value.str (stringValue svm.resourceARN))
      let st := setAttr setErr st "creation_time" (Value.str svm.creationTimeRFC3339)
      match setAttrE setErr st "endpoints"
          (Value.list (flattenSvmEndpoints svm.endpoints)) with
      | Except.error e => { state := st, diags := ["setting endpoints: " ++ e] }
      | Except.ok st =>
        let st := setAttr setErr st "file_system_id"
          (Value.str (stringValue svm.fileSystemId))
        let st := setAttr setErr st "lifecycle_status"
          (Value.str (stringValue svm.lifecycleStatus))
        match setAttrE setErr st "lifecycle_transition_reason"
            (Value.list (flattenLifecycleTransitionReason
              svm.lifecycleTransitionReason)) with
        | Except.error e =>
          { state := st, diags := ["setting lifecycle_transition_reason: " ++ e] }
        | Except.ok st =>
          let st := setAttr setErr st "name" (Value.str (stringValue svm.name))
          let st := setAttr setErr st "subtype" (Value.str (stringValue svm.subtype))
          let st := setAttr setErr st "uuid" (Value.str (stringValue svm.uuid))
          let tags := ignoreConfig cfg.ignoreTagsConfig (ignoreAWS svm.tags)
          match setAttrE setErr st "tags"
              (tagsMap (mergeDefaultConfig cfg.defaultTagsConfig tags)) with
          | Except.error e => { state := st, diags := ["setting tags: " ++ e] }
          | Except.ok st => { state := st, diags := [] }

/-- The names of the attributes present in a state, in write order. -/
def attrNames (st : State) : List String := st.attrs.map Prod.fst

/-- C4: an absent (nil) lifecycle transition reason flattens to the empty
list, never a null or omitted value: the function totally returns a list and
that list is empty on nil input. -/
theorem flattenLifecycleTransitionReason_none_eq_nil :
    flattenLifecycleTransitionReason none = [] := rfl

/-- C5: a present lifecycle transition reason whose message field is present
flattens to a list of exactly one element, a map binding the key "message" to
that message value. -/
theorem flattenLifecycleTransitionReason_some_message
    (rs : LifecycleTransitionReason) (msg : String) (h : rs.message = some msg) :
    flattenLifecycleTransitionReason (some rs) =
      [Value.map [("message", Value.str msg)]] := by
  simp [flattenLifecycleTransitionReason, h, stringValue]

/-- Witness for C5 at the concrete message "svm is pending". -/
theorem flattenLifecycleTransitionReason_some_message_witness :
    flattenLifecycleTransitionReason (some { message := some "svm is pending" }) =
      [Value.map [("message", Value.str "svm is pending")]] :=
  flattenLifecycleTransitionReason_some_message
    { message := some "svm is pending" } "svm is pending" rfl

/-- C8: flattenLifecycleTransitionReason is a pure function of its input:
applied twice to the same remote snapshot it yields identical output. -/
theorem flattenLifecycleTransitionReason_deterministic
    (rs snapshotAgain : Option LifecycleTransitionReason) (h : rs = snapshotAgain) :
    flattenLifecycleTransitionReason rs =
      flattenLifecycleTransitionReason snapshotAgain := by
  rw [h]

/-- Witness for C8 at a concrete snapshot read twice. -/
theorem flattenLifecycleTransitionReason_deterministic_witness :
    flattenLifecycleTransitionReason (some { message := some "m" }) =
      flattenLifecycleTransitionReason (some { message := some "m" }) :=
  flattenLifecycleTransitionReason_deterministic
    (some { message := some "m" }) (some { message := some "m" }) rfl

/-- C9: flattenLifecycleTransitionReason is total and on every input, nil
included, returns a list (never null) of length at most one. -/
theorem flattenLifecycleTransitionReason_length_le_one
    (rs : Option LifecycleTransitionReason) :
    (flattenLifecycleTransitionReason rs).length ≤ 1 := by
  cases rs with
  | none => simp [flattenLifecycleTransitionReason]
  | some r =>
    cases h : r.message <;> simp [flattenLifecycleTransitionReason, h]

/-- C10: a present lifecycle transition reason whose message field is absent
(nil) flattens to a one-element list holding a map with no "message" key at
all: not the empty list, and not a map binding "message" to an empty string. -/
theorem flattenLifecycleTransitionReason_message_nil
    (rs : LifecycleTransitionReason) (h : rs.message = none) :
    flattenLifecycleTransitionReason (some rs) = [Value.map []] := by
  simp [flattenLifecycleTransitionReason, h]

/-- Witness for C10 at the concrete reason with a nil message. -/
theorem flattenLifecycleTransitionReason_message_nil_witness :
    flattenLifecycleTransitionReason (some { message := none }) = [Value.map []] :=
  flattenLifecycleTransitionReason_message_nil { message := none } rfl

/-- C6: with an explicit identifier configured, the describe request the read
handler builds restricts the identifier list to exactly that identifier, and
any configured filters are still included in the request. -/
theorem buildInput_explicit_id (cfg : Config) (i : String)
    (hid : cfg.id = some i) (hne : i ≠ "") :
    (buildInput cfg).storageVirtualMachineIds = some [i] ∧
      (cfg.filters ≠ [] →
        (buildInput cfg).filters =
          some (newStorageVirtualMachineFilterList cfg.filters)) := by
  constructor
  · simp [buildInput, getOkString, hid, hne]
    split <;> simp
  · intro hf
    have hlen : (newStorageVirtualMachineFilterList cfg.filters).length ≠ 0 := by
      simp [newStorageVirtualMachineFilterList]
      exact hf
    simp [buildInput, getOkString, hid, hne, hlen]

/-- Witness for C6: an explicit identifier together with one configured
filter. -/
theorem buildInput_explicit_id_witness :
    (buildInput
      { id := some "svm-1234567890abcdef0",
        filters := [{ name := "file-system-id", values := ["fs-1"] }],
        defaultTagsConfig := { tags := [] },
        ignoreTagsConfig := { keys := [], keySpaces := [] } }).storageVirtualMachineIds =
        some ["svm-1234567890abcdef0"] ∧
      ([({ name := "file-system-id", values := ["fs-1"] } : SVMFilter)] ≠
          ([] : List SVMFilter) →
        (buildInput
          { id := some "svm-1234567890abcdef0",
            filters := [{ name := "file-system-id", values := ["fs-1"] }],
            defaultTagsConfig := { tags := [] },
            ignoreTagsConfig := { keys := [], keySpaces := [] } }).filters =
          some (newStorageVirtualMachineFilterList
            [{ name := "file-system-id", values := ["fs-1"] }])) :=
  buildInput_explicit_id _ "svm-1234567890abcdef0" rfl (by decide)

/-- C7: with an empty configured filter set, the describe request is built
with the filters field omitted (nil) rather than holding an empty list. -/
theorem buildInput_empty_filters (cfg : Config) (h : cfg.filters = []) :
    (buildInput cfg).filters = none := by
  cases hik : getOkString cfg.id <;>
    simp [buildInput, newStorageVirtualMachineFilterList, h, hik]

/-- Witness for C7 at a concrete configuration with no filters. -/
theorem buildInput_empty_filters_witness :
    (buildInput
      { id := some "svm-1234567890abcdef0",
        filters := [],
        defaultTagsConfig := { tags := [] },
        ignoreTagsConfig := { keys := [], keySpaces := [] } }).filters = none :=
  buildInput_empty_filters _ rfl

/-- A concrete configuration used by the handler witnesses. -/
def witnessConfig : Config :=
  { id := some "svm-1234567890abcdef0",
    filters := [],
    defaultTagsConfig := { tags := [("Env", "prod")] },
    ignoreTagsConfig := { keys := ["Secret"], keySpaces := ["internal:"] } }

/-- A concrete remote storage virtual machine used by the handler witnesses. -/
def witnessSvm : StorageVirtualMachine :=
  { storageVirtualMachineId := some "svm-1234567890abcdef0",
    resourceARN := some "arn:aws:fsx:us-west-2:123456789012:storage-virtual-machine/fs-1/svm-1234567890abcdef0",
    creationTimeRFC3339 := "2024-01-01T00:00:00Z",
    endpoints := none,
    fileSystemId := some "fs-1",
    lifecycleStatus := some "CREATED",
    lifecycleTransitionReason := none,
    name := some "svm1",
    subtype := some "DEFAULT",
    uuid := some "11111111-2222-3333-4444-555555555555",
    tags := [("aws:cloudformation:stack-name", "s"), ("Secret", "x"), ("Name", "svm1")],
    activeDirectoryConfiguration := none }

/-- C1: when the remote lookup fails (API error, zero matches or more than one
match, all surfaced as an error of the find helper), the handler returns
exactly one diagnostic, whose message is the fixed "reading FSx ONTAP Storage
Virtual Machine" text followed by the underlying error text, and neither the
state identifier nor any attribute is written. -/
theorem read_lookup_error_reports_and_writes_nothing (cfg : Config)
    (find : DescribeStorageVirtualMachinesInput → Except String StorageVirtualMachine)
    (setErr : SetOracle) (err : String)
    (h : find (buildInput cfg) = Except.error err) :
    (dataSourceONTAPStorageVirtualMachineRead cfg find setErr).diags =
        ["reading FSx ONTAP Storage Virtual Machine: " ++ err] ∧
      (dataSourceONTAPStorageVirtualMachineRead cfg find setErr).state.id = none ∧
      (dataSourceONTAPStorageVirtualMachineRead cfg find setErr).state.attrs = [] := by
  simp [dataSourceONTAPStorageVirtualMachineRead, h]

/-- Witness for C1: a find helper that always fails with a concrete error. -/
theorem read_lookup_error_reports_and_writes_nothing_witness :
    (dataSourceONTAPStorageVirtualMachineRead witnessConfig
          (fun _ => Except.error "empty result") (fun _ => none)).diags =
        ["reading FSx ONTAP Storage Virtual Machine: " ++ "empty result"] ∧
      (dataSourceONTAPStorageVirtualMachineRead witnessConfig
          (fun _ => Except.error "empty result") (fun _ => none)).state.id = none ∧
      (dataSourceONTAPStorageVirtualMachineRead witnessConfig
          (fun _ => Except.error "empty result") (fun _ => none)).state.attrs = [] :=
  read_lookup_error_reports_and_writes_nothing witnessConfig
    (fun _ => Except.error "empty result") (fun _ => none) "empty result" rfl

/-- An unguarded set call can add at most its own attribute name to the
state: any name present afterwards was present before or is that name. -/
theorem mem_attrNames_setAttr (setErr : SetOracle) (st : State) (b : String)
    (v : Value) (a : String) (h : a ∈ attrNames (setAttr setErr st b v)) :
    a ∈ attrNames st ∨ a = b := by
  cases hb : setErr b with
  | some e =>
    unfold setAttr at h
    rw [hb] at h
    exact Or.inl h
  | none =>
    unfold setAttr at h
    rw [hb] at h
    unfold attrNames at h ⊢
    rw [List.map_append] at h
    rcases List.mem_append.mp h with h | h
    · exact Or.inl h
    · simp at h
      exact Or.inr h

/-- C2: with a successful lookup, a failing checked field-set call (for any of
active_directory_configuration, endpoints, lifecycle_transition_reason, tags)
aborts the read with the field-specific diagnostic for that attribute, and no
attribute set after the failed call is written: every attribute present in the
final state was set before the failed call. -/
theorem read_set_error_fails_fast (cfg : Config)
    (find : DescribeStorageVirtualMachinesInput → Except String StorageVirtualMachine)
    (setErr : SetOracle) (svm : StorageVirtualMachine) (e : String) (R : ReadOutcome)
    (hfind : find (buildInput cfg) = Except.ok svm)
    (hR : R = dataSourceONTAPStorageVirtualMachineRead cfg find setErr) :
    (setErr "active_directory_configuration" = some e →
        R.diags = ["setting active_directory_configuration: " ++ e] ∧
          attrNames R.state = []) ∧
      (setErr "active_directory_configuration" = none →
        setErr "endpoints" = some e →
          R.diags = ["setting endpoints: " ++ e] ∧
            ∀ a ∈ attrNames R.state,
              a ∈ ["active_directory_configuration", "arn", "creation_time"]) ∧
      (setErr "active_directory_configuration" = none →
        setErr "endpoints" = none →
        setErr "lifecycle_transition_reason" = some e →
          R.diags = ["setting lifecycle_transition_reason: " ++ e] ∧
            ∀ a ∈ attrNames R.state,
              a ∈ ["active_directory_configuration", "arn", "creation_time",
                   "endpoints", "file_system_id", "lifecycle_status"]) ∧
      (setErr "active_directory_configuration" = none →
        setErr "endpoints" = none →
        setErr "lifecycle_transition_reason" = none →
        setErr "tags" = some e →
          R.diags = ["setting tags: " ++ e] ∧
            ∀ a ∈ attrNames R.state,
              a ∈ ["active_directory_configuration", "arn", "creation_time",
                   "endpoints", "file_system_id", "lifecycle_status",
                   "lifecycle_transition_reason", "name", "subtype", "uuid"]) := by
  subst hR
  unfold dataSourceONTAPStorageVirtualMachineRead
  simp only [hfind]
  refine ⟨?_, ?_, ?_, ?_⟩
  · intro h1
    simp [setAttrE, h1, attrNames]
  · intro h1 h2
    simp only [setAttrE, h1, h2]
    refine ⟨by simp, ?_⟩
    intro a ha
    rcases mem_attrNames_setAttr _ _ _ _ _ ha with ha | rfl
    · rcases mem_attrNames_setAttr _ _ _ _ _ ha with ha | rfl
      · simp [attrNames] at ha
        simp [ha]
      · simp
    · simp
  · intro h1 h2 h3
    simp only [setAttrE, h1, h2, h3]
    refine ⟨by simp, ?_⟩
    intro a ha
    rcases mem_attrNames_setAttr _ _ _ _ _ ha with ha | rfl
    · rcases mem_attrNames_setAttr _ _ _ _ _ ha with ha | rfl
      · simp only [attrNames, List.map_append] at ha
        rcases List.mem_append.mp ha with ha | ha
        · rcases mem_attrNames_setAttr _ _ _ _ _ (by simpa [attrNames] using ha) with ha | rfl
          · rcases mem_attrNames_setAttr _ _ _ _ _ ha with ha | rfl
            · simp [attrNames] at ha
              simp [ha]
            · simp
          · simp
        · simp at ha
          simp [ha]
      · simp
    · simp
  · intro h1 h2 h3 h4
    simp only [setAttrE, h1, h2, h3, h4]
    refine ⟨by simp, ?_⟩
    intro a ha
    rcases mem_attrNames_setAttr _ _ _ _ _ ha with ha | rfl
    · rcases mem_attrNames_setAttr _ _ _ _ _ ha with ha | rfl
      · rcases mem_attrNames_setAttr _ _ _ _ _ ha with ha | rfl
        · simp only [attrNames, List.map_append] at ha
          rcases List.mem_append.mp ha with ha | ha
          · rcases mem_attrNames_setAttr _ _ _ _ _ (by simpa [attrNames] using ha) with ha | rfl
            · rcases mem_attrNames_setAttr _ _ _ _ _ ha with ha | rfl
              · simp only [attrNames, List.map_append] at ha
                rcases List.mem_append.mp ha with ha | ha
                · rcases mem_attrNames_setAttr _ _ _ _ _ (by simpa [attrNames] using ha) with ha | rfl
                  · rcases mem_attrNames_setAttr _ _ _ _ _ ha with ha | rfl
                    · simp [attrNames] at ha
                      simp [ha]
                    · simp
                  · simp
                · simp at ha
                  simp [ha]
              · simp
            · simp
          · simp at ha
            simp [ha]
        · simp
      · simp
    · simp

/-- A concrete set oracle failing exactly on the endpoints attribute, used by
the C2 witness. -/
def witnessSetErrEndpoints : SetOracle :=
  fun a => if a = "endpoints" then some "shape mismatch" else none

/-- Witness for C2: with a lookup returning the concrete machine and the
framework rejecting the endpoints assignment, the read aborts with the
endpoints diagnostic and only earlier attributes are written. -/
theorem read_set_error_fails_fast_witness :
    (dataSourceONTAPStorageVirtualMachineRead witnessConfig
          (fun _ => Except.ok witnessSvm) witnessSetErrEndpoints).diags =
        ["setting endpoints: " ++ "shape mismatch"] ∧
      ∀ a ∈ attrNames (dataSourceONTAPStorageVirtualMachineRead witnessConfig
          (fun _ => Except.ok witnessSvm) witnessSetErrEndpoints).state,
        a ∈ ["active_directory_configuration", "arn", "creation_time"] :=
  (read_set_error_fails_fast witnessConfig (fun _ => Except.ok witnessSvm)
      witnessSetErrEndpoints witnessSvm "shape mismatch" _ rfl rfl).2.1
    (by decide) (by decide)

/-- C3: on a successful read (empty diagnostics), the value written to the
tags attribute is the remote tag set with AWS-reserved tags and
provider-configured-ignore tags excluded, then merged with the provider's
default-tag configuration. -/
theorem read_tags_filtered_then_defaults (cfg : Config)
    (find : DescribeStorageVirtualMachinesInput → Except String StorageVirtualMachine)
    (setErr : SetOracle) (svm : StorageVirtualMachine)
    (hfind : find (buildInput cfg) = Except.ok svm)
    (hok : ∀ a, setErr a = none) :
    (dataSourceONTAPStorageVirtualMachineRead cfg find setErr).diags = [] ∧
      ((dataSourceONTAPStorageVirtualMachineRead cfg find setErr).state.attrs).lookup
          "tags" =
        some (tagsMap (mergeDefaultConfig cfg.defaultTagsConfig
          (ignoreConfig cfg.ignoreTagsConfig (ignoreAWS svm.tags)))) := by
  unfold dataSourceONTAPStorageVirtualMachineRead
  simp [hfind, setAttrE, setAttr, hok, List.lookup]

/-- Witness for C3 at the concrete configuration and machine: the lookup
succeeds, every set call succeeds, and the tags attribute holds the filtered
and default-merged tag map. -/
theorem read_tags_filtered_then_defaults_witness :
    (dataSourceONTAPStorageVirtualMachineRead witnessConfig
        (fun _ => Except.ok witnessSvm) (fun _ => none)).diags = [] ∧
      ((dataSourceONTAPStorageVirtualMachineRead witnessConfig
          (fun _ => Except.ok witnessSvm) (fun _ => none)).state.attrs).lookup
          "tags" =
        some (tagsMap (mergeDefaultConfig witnessConfig.defaultTagsConfig
          (ignoreConfig witnessConfig.ignoreTagsConfig (ignoreAWS witnessSvm.tags)))) :=
  read_tags_filtered_then_defaults witnessConfig (fun _ => Except.ok witnessSvm)
    (fun _ => none) witnessSvm rfl (fun _ => rfl)

end FsxOntapSvm
